import Mathlib

/-!
Verification of the parking-heater BLE protocol client and coordinator.

The definitions below are a shallow embedding of the Python source of the
repository (custom_components/parking_heater/heater_client.py,
custom_components/parking_heater/coordinator.py, and the standalone
test_heater_connection.py script).  Bytes are modelled as `Nat` values in
[0,255]; byte strings as `List Nat`; Python exceptions as `Except String`
or `Option`; the two floating-point temperature fields as exact rationals
(no claim inspects their numeric value, so the binary-float rounding of
Python is irrelevant here).

Python semantics note: heater_client.py defines `_notification_handler` and
`_send_command` twice inside the class body; the later definition wins, so
the embedding models the second definition of each (the one actually bound
on the class at runtime).
-/

namespace ParkingHeater

/-! ## Frame codec -/

/-- `ParkingHeaterClient._build_command` (heater_client.py lines 202-208):
`cmd = bytearray([0xAA, 0x55, 0x0C, 0x22, cmd_type, data1, data2, 0x00])`
followed by `cmd[7] = sum(cmd[2:7]) & 0xFF`.  For byte-valued inputs
`& 0xFF` coincides with `% 256`. -/
def client_build_command (cmd_type data1 data2 : Nat) : List Nat :=
  let cs := (0x0C + 0x22 + cmd_type + data1 + data2) % 256
  [0xAA, 0x55, 0x0C, 0x22, cmd_type, data1, data2, cs]

/-- `build_command` of test_heater_connection.py (lines 35-71), standard
path `mode = 0x55`: `payload[2] = (passkey // 100) & 0xFF`,
`payload[3] = passkey % 100`, `payload[4] = command`,
`payload[5] = data % 256`, `payload[6] = data // 256`,
`payload[7] = sum(payload[2:7]) & 0xFF`. -/
def build_command (command data passkey : Nat) : List Nat :=
  let b2 := (passkey / 100) % 256
  let b3 := passkey % 100
  let b5 := data % 256
  let b6 := data / 256
  let cs := (b2 + b3 + command + b5 + b6) % 256
  [0xAA, 0x55, b2, b3, command, b5, b6, cs]

/-- The fixed XOR key of `ParkingHeaterClient._decrypt_data`: the bytes of
the ASCII string "password". -/
def xor_key : List Nat := [0x70, 0x61, 0x73, 0x73, 0x77, 0x6F, 0x72, 0x64]

/-- `ParkingHeaterClient._decrypt_data` (heater_client.py lines 210-216):
`decrypted[i] ^= key[i % 8]` for every index. -/
def decrypt_data (data : List Nat) : List Nat :=
  data.mapIdx fun i b => b ^^^ xor_key.getD (i % 8) 0

/-- The inbound frame starts with the two magic bytes `0xAA 0x55`. -/
def starts_with_magic (l : List Nat) : Prop :=
  l.getD 0 0 = 0xAA ∧ l.getD 1 0 = 0x55 ∧ 2 ≤ l.length

instance (l : List Nat) : Decidable (starts_with_magic l) := by
  unfold starts_with_magic; infer_instance

/-- The effective `ParkingHeaterClient._notification_handler`
(heater_client.py lines 218-234; the second definition of the method,
which overrides the first).  It stores a notification payload only for an
obfuscated frame (leading byte `0xDA`) whose XOR-unmasked bytes start with
`0xAA 0x55`; everything else is dropped (an `IndexError` on a too-short
decrypted frame is swallowed by the surrounding `except`).  `some d` means
"`self._notification_data = d` and the event is set"; `none` means the
frame is rejected. -/
def notification_handler (data : List Nat) : Option (List Nat) :=
  if 0 < data.length ∧ data.getD 0 0 = 0xDA then
    let decrypted := decrypt_data data
    if starts_with_magic decrypted then some decrypted else none
  else none

/-! ## Status decoding (`ParkingHeaterClient.get_status`) -/

/-- The status dictionary built by `ParkingHeaterClient.get_status`
(heater_client.py lines 345-355).  The two temperature fields are Python
floats; they are modelled as exact rationals. -/
structure HeaterStatus where
  is_on : Bool
  run_state : Nat
  target_temperature : Nat
  target_level : Nat
  current_temperature : Rat
  chamber_temperature : Rat
  fan_speed : Nat
  error_code : Nat
  connection_status : String
  deriving Repr, DecidableEq

/-- `target_level = max(1, min(10, target_level))` (heater_client.py
line 317). -/
def clamp_level (n : Nat) : Nat := max 1 (min 10 n)

/-- The run-mode branch of `get_status` (heater_client.py lines 303-314)
that derives the pre-clamp target level from the raw frame:
mode 0 gives `response[10] + 1`, mode 1 gives `response[10]`, mode 2 gives
`response[10] + 1`, any other mode falls back to
`response[10] if len(response) > 10 else 1`. -/
def raw_target_level (response : List Nat) : Nat :=
  let run_mode := response.getD 8 0
  if run_mode = 0 then response.getD 10 0 + 1
  else if run_mode = 1 then response.getD 10 0
  else if run_mode = 2 then response.getD 10 0 + 1
  else if 10 < response.length then response.getD 10 0
  else 1

/-- The local-tracking override of `get_status` (heater_client.py lines
322-332), taking the clamped decoded level and the current
`_last_set_level`; returns the published level together with the new
`_last_set_level`.  When `_last_set_level` is set: a decoded level of 1
is replaced by the remembered value (which is kept), while a decoded
level other than 1 is published as-is and overwrites the remembered
value. -/
def level_pair (clamped : Nat) (lastSet : Option Nat) : Nat × Option Nat :=
  match lastSet with
  | none => (clamped, none)
  | some k =>
    if clamped = 1 ∧ k ≠ 1 then (k, some k)
    else if clamped ≠ 1 then (clamped, some clamped)
    else (clamped, some k)

/-- The 16-bit sign fix of `get_status`:
`t = lo + (hi << 8); if t > 32767: t -= 65536`. -/
def signed16 (lo hi : Nat) : Int :=
  let v := lo + hi * 256
  if 32767 < v then (v : Int) - 65536 else (v : Int)

/-- The parsing section of `ParkingHeaterClient.get_status`
(heater_client.py lines 289-358), applied to one accepted response frame.
Returns the status dictionary and the updated `_last_set_level`. -/
def parse_status (response : List Nat) (lastSet : Option Nat) :
    HeaterStatus × Option Nat :=
  let run_state := response.getD 3 0
  let run_mode := response.getD 8 0
  let target_temp := if run_mode = 2 then response.getD 9 0 else 20
  let clamped := clamp_level (raw_target_level response)
  let lp := level_pair clamped lastSet
  let case_temp := signed16 (response.getD 14 0) (response.getD 13 0)
  let chamber_temp : Rat :=
    if 34 ≤ response.length then
      (signed16 (response.getD 33 0) (response.getD 32 0) : Rat) / 10
    else 0
  ({ is_on := run_state == 1 || run_state == 2 || run_state == 3 || run_state == 4,
     run_state := run_state,
     target_temperature := target_temp,
     target_level := lp.1,
     current_temperature := chamber_temp,
     chamber_temperature := (case_temp : Rat),
     fan_speed := 1,
     error_code := response.getD 4 0,
     connection_status := "Connected" }, lp.2)

/-- `ParkingHeaterClient.get_status` on a single response frame (the retry
loop of lines 270-287 collapsed to its acceptance condition): the frame is
accepted only if it is at least 13 bytes long and its type discriminant
`response[2]` equals `0x01`; a frame shorter than 15 bytes then raises
`IndexError` at the `response[14]` access (line 334), which propagates out
of `get_status` — both rejections are modelled as `none`. -/
def get_status (response : List Nat) (lastSet : Option Nat) :
    Option (HeaterStatus × Option Nat) :=
  if response.length < 13 then none
  else if response.getD 2 0 ≠ 1 then none
  else if response.length < 15 then none
  else some (parse_status response lastSet)

/-- `ParkingHeaterClient._get_default_status` (heater_client.py lines
363-374).  The source dict carries no `run_state` key; the structure field
is filled with 0 here (no claim reads it on a default snapshot). -/
def get_default_status : HeaterStatus :=
  { is_on := false,
    run_state := 0,
    target_temperature := 8,
    target_level := 1,
    current_temperature := 8,
    chamber_temperature := 8,
    fan_speed := 1,
    error_code := 0,
    connection_status := "Unknown" }

/-! ## Client command methods

The transport is modelled by oracle arguments: each `Except String Unit`
argument is the outcome of one awaited transport operation (`ok` = the
call returned, `error e` = it raised `e`).  A `writes` field collects the
frames whose GATT write completed; a send whose write itself raised
contributes nothing to it. -/

/-- `ParkingHeaterClient.set_power` (heater_client.py lines 376-399):
three `_send_command` attempts whose failures are caught and logged; after
three failures a final blind send is issued inside `try: ... except:
pass`.  Consequently the method returns normally on every path — no
transport failure ever escapes it. -/
def set_power (power_on : Bool)
    (a1 a2 a3 blindR : Except String Unit) : Except String Unit :=
  match a1 with
  | Except.ok _ => Except.ok ()
  | Except.error _ =>
    match a2 with
    | Except.ok _ => Except.ok ()
    | Except.error _ =>
      match a3 with
      | Except.ok _ => Except.ok ()
      | Except.error _ =>
        match blindR with
        | Except.ok _ => Except.ok ()
        | Except.error _ => Except.ok ()

/-- `MIN_TEMP` of const.py. -/
def MIN_TEMP : Int := 8

/-- `MAX_TEMP` of const.py. -/
def MAX_TEMP : Int := 36

/-- Result of `set_temperature`: the outcome and the frames written. -/
structure SetTempResult where
  result : Except String Unit
  writes : List (List Nat)
  deriving Repr

/-- `ParkingHeaterClient.set_temperature` (heater_client.py lines
408-420): range check `MIN_TEMP <= temperature <= MAX_TEMP` raising
`ValueError` before any transport call; then `set_mode(2)` (frame
`_build_command(0x02, 2)`), then the value frame
`_build_command(0x04, temperature)`, both sent without waiting for a
response. -/
def set_temperature (temperature : Int)
    (modeR valR : Except String Unit) : SetTempResult :=
  if ¬ (MIN_TEMP ≤ temperature ∧ temperature ≤ MAX_TEMP) then
    { result := Except.error "ValueError", writes := [] }
  else
    match modeR with
    | Except.error e => { result := Except.error e, writes := [] }
    | Except.ok _ =>
      match valR with
      | Except.error e =>
        { result := Except.error e, writes := [client_build_command 2 2 0] }
      | Except.ok _ =>
        { result := Except.ok (),
          writes := [client_build_command 2 2 0,
                     client_build_command 4 temperature.toNat 0] }

/-- Result of `set_level`: the outcome, the updated `_last_set_level`,
and the frames written. -/
structure SetLevelResult where
  result : Except String Unit
  lastSet : Option Nat
  writes : List (List Nat)
  deriving Repr

/-- The retry loop of `set_level` (heater_client.py lines 435-444): walk
the attempt outcomes; the first successful attempt writes the level frame
and updates `_last_set_level`; failed attempts are caught and logged;
when all fail the loop falls through leaving the state untouched. -/
def set_level_attempts (level : Nat) (lastSet : Option Nat) :
    List (Except String Unit) → Option Nat × List (List Nat)
  | [] => (lastSet, [])
  | Except.ok _ :: _ => (some level, [client_build_command 4 level 0])
  | Except.error _ :: _rest => set_level_attempts level lastSet _rest

/-- `ParkingHeaterClient.set_level` (heater_client.py lines 422-446):
range check `1 <= level <= 10` raising `ValueError` before any transport
call; then `set_mode(1)` (frame `_build_command(0x02, 1)`, whose failure
does propagate); then up to three attempts at the level frame whose
failures are all caught — after three failed attempts the method merely
logs an error and returns normally. -/
def set_level (level : Int) (lastSet : Option Nat)
    (modeR a1 a2 a3 : Except String Unit) : SetLevelResult :=
  if ¬ (1 ≤ level ∧ level ≤ 10) then
    { result := Except.error "ValueError", lastSet := lastSet, writes := [] }
  else
    match modeR with
    | Except.error e =>
      { result := Except.error e, lastSet := lastSet, writes := [] }
    | Except.ok _ =>
      let aw := set_level_attempts level.toNat lastSet [a1, a2, a3]
      { result := Except.ok (), lastSet := aw.1,
        writes := client_build_command 2 1 0 :: aw.2 }

/-! ## Coordinator -/

/-- Result of a coordinator command method: whether a (best-effort)
disconnect was performed and the outcome surfaced to the caller. -/
structure CoordCmdResult where
  disconnected : Bool
  result : Except String Unit
  deriving Repr

/-- The shared structure of `ParkingHeaterCoordinator.async_set_power`,
`async_set_temperature` and `async_set_fan_speed` (coordinator.py lines
126-182): under the lock, connect when not connected, then run the client
command followed by the refresh (the "body"); on any exception perform a
best-effort `disconnect()` and re-raise.  `connectR` is the outcome of
`client.connect()` (consulted only when not connected), `bodyR` the
outcome of the body. -/
def async_command (connected : Bool)
    (connectR bodyR : Except String Unit) : CoordCmdResult :=
  let attempt : Except String Unit :=
    if connected then bodyR
    else
      match connectR with
      | Except.error e => Except.error e
      | Except.ok _ => bodyR
  match attempt with
  | Except.ok _ => { disconnected := false, result := Except.ok () }
  | Except.error e => { disconnected := true, result := Except.error e }

/-- Result of one polling tick: the returned (published) snapshot and
whether a disconnect was performed or attempted.  The function is total:
no error propagates out of the polling path. -/
structure UpdateResult where
  published : HeaterStatus
  disconnected : Bool
  deriving Repr, DecidableEq

/-- The error-branch base snapshot of `_async_update_data`
(coordinator.py lines 117-124): the previous data unless it is still the
`Initializing` seed, in which case the default status. -/
def update_error_base (data1 : HeaterStatus) : HeaterStatus :=
  if data1.connection_status = "Initializing" then get_default_status
  else data1

/-- `ParkingHeaterCoordinator._async_update_data` (coordinator.py lines
68-124).  `prevData` is `self.data` (seeded with the `Initializing`
default when `None`), `desired` the desired-connection flag, `connected`
the client connection state at entry, and `fetch` the combined outcome of
`connect()` + `get_status()` inside the `try` block.  When not connected,
the interim `Connecting...` status is written into `self.data` before the
connect attempt, which is why the error branch sees it. -/
def async_update_data (prevData : Option HeaterStatus)
    (desired connected : Bool)
    (fetch : Except String HeaterStatus) : UpdateResult :=
  let data0 := prevData.getD
    { get_default_status with connection_status := "Initializing" }
  if desired = false then
    { published :=
        { get_default_status with
          connection_status := "Disconnected (Manual)" },
      disconnected := connected }
  else
    let data1 :=
      if connected = false then
        { data0 with connection_status := "Connecting..." }
      else data0
    match fetch with
    | Except.ok d =>
      { published := { d with connection_status := "Connected" },
        disconnected := false }
    | Except.error e =>
      { published :=
          { update_error_base data1 with
            connection_status := "Error: " ++ e.take 20 ++ "..." },
        disconnected := true }

/-! ## Claim theorems for the codec -/

/-- C5: for all valid `(commandId, data1, data2, password)` inputs, the
encoded 8-byte frame starts with the magic bytes `0xAA 0x55` and its final
byte equals the sum of the frame bytes at indices 2 through 6 (the Python
slice `[2:7]`) modulo 256 — for both `build_command` of the test script
and `ParkingHeaterClient._build_command`. -/
theorem encode_checksum_and_magic
    (command data passkey cmd_type d1 d2 : Nat)
    (hc : command ≤ 255) (hd : data ≤ 65535) (hp : passkey ≤ 9999)
    (hct : cmd_type ≤ 255) (h1 : d1 ≤ 255) (h2 : d2 ≤ 255) :
    ((build_command command data passkey).length = 8 ∧
      (build_command command data passkey).getD 0 0 = 0xAA ∧
      (build_command command data passkey).getD 1 0 = 0x55 ∧
      (build_command command data passkey).getD 7 0 =
        ((build_command command data passkey).getD 2 0 +
         (build_command command data passkey).getD 3 0 +
         (build_command command data passkey).getD 4 0 +
         (build_command command data passkey).getD 5 0 +
         (build_command command data passkey).getD 6 0) % 256) ∧
    ((client_build_command cmd_type d1 d2).length = 8 ∧
      (client_build_command cmd_type d1 d2).getD 0 0 = 0xAA ∧
      (client_build_command cmd_type d1 d2).getD 1 0 = 0x55 ∧
      (client_build_command cmd_type d1 d2).getD 7 0 =
        ((client_build_command cmd_type d1 d2).getD 2 0 +
         (client_build_command cmd_type d1 d2).getD 3 0 +
         (client_build_command cmd_type d1 d2).getD 4 0 +
         (client_build_command cmd_type d1 d2).getD 5 0 +
         (client_build_command cmd_type d1 d2).getD 6 0) % 256) :=
  ⟨⟨rfl, rfl, rfl, rfl⟩, ⟨rfl, rfl, rfl, rfl⟩⟩

/-- Witness for C5 at the concrete input of the source: command 1, data 0,
passkey 1234 (the get-status frame `AA 55 0C 22 01 00 00 2F`), and the
client builder at `(0x03, 0x01, 0x00)` (power on). -/
theorem encode_checksum_and_magic_w :
    (1 ≤ 255 ∧ 0 ≤ 65535 ∧ 1234 ≤ 9999 ∧ 3 ≤ 255) ∧
    build_command 1 0 1234 = [0xAA, 0x55, 0x0C, 0x22, 0x01, 0x00, 0x00, 0x2F] ∧
    ((build_command 1 0 1234).getD 7 0 =
      ((build_command 1 0 1234).getD 2 0 + (build_command 1 0 1234).getD 3 0 +
       (build_command 1 0 1234).getD 4 0 + (build_command 1 0 1234).getD 5 0 +
       (build_command 1 0 1234).getD 6 0) % 256) ∧
    ((client_build_command 3 1 0).getD 7 0 =
      ((client_build_command 3 1 0).getD 2 0 + (client_build_command 3 1 0).getD 3 0 +
       (client_build_command 3 1 0).getD 4 0 + (client_build_command 3 1 0).getD 5 0 +
       (client_build_command 3 1 0).getD 6 0) % 256) :=
  ⟨by decide,
   by decide,
   (encode_checksum_and_magic 1 0 1234 3 1 0 (by decide) (by decide) (by decide)
      (by decide) (by decide) (by decide)).1.2.2.2,
   (encode_checksum_and_magic 1 0 1234 3 1 0 (by decide) (by decide) (by decide)
      (by decide) (by decide) (by decide)).2.2.2.2⟩

/-- C4: every inbound raw frame whose first two bytes are not `0xAA 0x55`
after unmasking (the fixed 8-byte repeating XOR mask is applied exactly
when the first byte is `0xDA`) is rejected by the notification handler;
and for a `0xDA` frame the handler accepts exactly when the unmasked bytes
start with the two magic bytes. -/
theorem bad_magic_rejection (data : List Nat) :
    (¬ starts_with_magic
        (if data.getD 0 0 = 0xDA then decrypt_data data else data) →
      notification_handler data = none) ∧
    (data.getD 0 0 = 0xDA →
      notification_handler data =
        if starts_with_magic (decrypt_data data) then some (decrypt_data data)
        else none) := by
  constructor
  · intro hmagic
    unfold notification_handler
    by_cases hda : data.getD 0 0 = 0xDA
    · rw [if_pos hda] at hmagic
      have hlen : 0 < data.length := by
        rcases data with _ | ⟨b, rest⟩
        · simp at hda
        · simp
      rw [if_pos ⟨hlen, hda⟩, if_neg hmagic]
    · rw [if_neg hda] at hmagic
      rw [if_neg]
      intro ⟨_, h⟩
      exact hda h
  · intro hda
    have hlen : 0 < data.length := by
      rcases data with _ | ⟨b, rest⟩
      · simp at hda
      · simp
    unfold notification_handler
    rw [if_pos ⟨hlen, hda⟩]

/-- Witness for C4: the concrete obfuscated frame `[0xDA, 0x00]` unmasks
to `[0xAA, 0x61]`, which does not start with `0xAA 0x55`, so the handler
drops it; and the plain frame `[0x01, 0x02]` (not magic, not `0xDA`) is
dropped too. -/
theorem bad_magic_rejection_w :
    (¬ starts_with_magic
        (if ([0xDA, 0x00] : List Nat).getD 0 0 = 0xDA then
          decrypt_data [0xDA, 0x00] else [0xDA, 0x00])) ∧
    notification_handler [0xDA, 0x00] = none ∧
    notification_handler [0x01, 0x02] = none :=
  ⟨by decide,
   (bad_magic_rejection [0xDA, 0x00]).1 (by decide),
   (bad_magic_rejection [0x01, 0x02]).1 (by decide)⟩

/-! ## Claim theorems for status decoding -/

/-- A successful `get_status` yields exactly the parse of the response. -/
theorem get_status_eq {r : List Nat} {ls : Option Nat}
    {x : HeaterStatus × Option Nat}
    (h : get_status r ls = some x) : x = parse_status r ls := by
  unfold get_status at h
  split_ifs at h
  exact (Option.some.inj h).symm

theorem clamp_level_bounds (n : Nat) :
    1 ≤ clamp_level n ∧ clamp_level n ≤ 10 := by
  unfold clamp_level; omega

theorem parse_status_target_level (r : List Nat) (ls : Option Nat) :
    (parse_status r ls).1.target_level =
      (level_pair (clamp_level (raw_target_level r)) ls).1 := rfl

theorem parse_status_last_set (r : List Nat) (ls : Option Nat) :
    (parse_status r ls).2 =
      (level_pair (clamp_level (raw_target_level r)) ls).2 := rfl

theorem parse_status_target_temp (r : List Nat) (ls : Option Nat) :
    (parse_status r ls).1.target_temperature =
      if r.getD 8 0 = 2 then r.getD 9 0 else 20 := rfl

theorem parse_status_is_on (r : List Nat) (ls : Option Nat) :
    (parse_status r ls).1.is_on =
      (r.getD 3 0 == 1 || r.getD 3 0 == 2 || r.getD 3 0 == 3 ||
       r.getD 3 0 == 4) := rfl

/-- Case analysis of the local-tracking override: either the published
level is the clamped wire level and the memory is unchanged or set to that
level, or the frame reported level 1 while the memory held a different
value `k`, which is then published and kept. -/
theorem level_pair_spec (c : Nat) (ls : Option Nat) :
    ((level_pair c ls).1 = c ∧
      ((level_pair c ls).2 = ls ∨ (level_pair c ls).2 = some c)) ∨
    (∃ k, ls = some k ∧ c = 1 ∧ k ≠ 1 ∧ level_pair c ls = (k, some k)) := by
  cases ls with
  | none => exact Or.inl ⟨rfl, Or.inl rfl⟩
  | some k =>
    by_cases h1 : c = 1 ∧ k ≠ 1
    · exact Or.inr ⟨k, rfl, h1.1, h1.2, by simp [level_pair, h1]⟩
    · left
      constructor
      · simp only [level_pair, if_neg h1]
        split_ifs <;> rfl
      · simp only [level_pair, if_neg h1]
        split_ifs
        · exact Or.inr rfl
        · exact Or.inl rfl

/-- C1 counterexample: the claim that `targetTemperatureC` is clamped to
`[8,36]` on decode fails.  The 15-byte frame below is accepted (type
byte 1), has `runMode = 2` and raw byte 9 equal to 100, and decodes to a
published snapshot with `target_temperature = 100`, outside `[8,36]`:
`get_status` never clamps the temperature. -/
theorem target_temp_unclamped_cex :
    ((get_status [0xAA, 0x55, 1, 0, 0, 0, 0, 0, 2, 100, 4, 0, 0, 0, 0]
        none).map fun p => p.1.target_temperature) = some 100 ∧
    ¬ (100 ≤ 36) := ⟨rfl, by decide⟩

/-- C1 amended: for every successfully decoded snapshot, `target_level`
is in `[1,10]` (provided the injected `_last_set_level`, when set, is in
`[1,10]` — an invariant maintained by `set_level` validation and by the
decoder itself, as the second conjunct shows).  The decoded
`target_temperature`, however, is not clamped: it is the constant 20
whenever `runMode ≠ 2`, and the raw (unclamped) byte 9 whenever
`runMode = 2`, so it can lie outside `[8,36]`. -/
theorem decoded_ranges_amended (r : List Nat) (ls : Option Nat)
    (st : HeaterStatus) (ls' : Option Nat)
    (hls : ∀ k, ls = some k → 1 ≤ k ∧ k ≤ 10)
    (h : get_status r ls = some (st, ls')) :
    (1 ≤ st.target_level ∧ st.target_level ≤ 10) ∧
    (∀ k, ls' = some k → 1 ≤ k ∧ k ≤ 10) ∧
    (r.getD 8 0 ≠ 2 → st.target_temperature = 20) ∧
    (r.getD 8 0 = 2 → st.target_temperature = r.getD 9 0) := by
  have hx := get_status_eq h
  have hst : st = (parse_status r ls).1 := congrArg Prod.fst hx
  have hsnd : ls' = (parse_status r ls).2 := congrArg Prod.snd hx
  obtain ⟨hc1, hc10⟩ := clamp_level_bounds (raw_target_level r)
  refine ⟨?_, ?_, ?_, ?_⟩
  · rw [hst, parse_status_target_level]
    rcases level_pair_spec (clamp_level (raw_target_level r)) ls with
      ⟨hfst, -⟩ | ⟨k, hk, -, -, heq⟩
    · rw [hfst]; exact ⟨hc1, hc10⟩
    · rw [heq]; exact hls k hk
  · intro k hk
    rw [hsnd, parse_status_last_set] at hk
    rcases level_pair_spec (clamp_level (raw_target_level r)) ls with
      ⟨-, hsome | hsome⟩ | ⟨k', hk', -, -, heq⟩
    · exact hls k (hsome ▸ hk)
    · rw [hsome] at hk
      exact (Option.some.inj hk) ▸ ⟨hc1, hc10⟩
    · rw [heq] at hk
      exact (Option.some.inj hk) ▸ hls k' hk'
  · intro h8
    rw [hst, parse_status_target_temp, if_neg h8]
  · intro h8
    rw [hst, parse_status_target_temp, if_pos h8]

/-- Witness for C1 amended: the frame used in the counterexample, with no
remembered level, decodes with `target_level = 5 ∈ [1,10]` and, being a
mode-2 frame, `target_temperature` equal to raw byte 9. -/
theorem decoded_ranges_amended_w :
    (1 ≤ (parse_status [0xAA, 0x55, 1, 0, 0, 0, 0, 0, 2, 100, 4, 0, 0, 0, 0]
        none).1.target_level ∧
      (parse_status [0xAA, 0x55, 1, 0, 0, 0, 0, 0, 2, 100, 4, 0, 0, 0, 0]
        none).1.target_level ≤ 10) ∧
    (parse_status [0xAA, 0x55, 1, 0, 0, 0, 0, 0, 2, 100, 4, 0, 0, 0, 0]
        none).1.target_temperature =
      ([0xAA, 0x55, 1, 0, 0, 0, 0, 0, 2, 100, 4, 0, 0, 0, 0] :
        List Nat).getD 9 0 := by
  have h := decoded_ranges_amended
    [0xAA, 0x55, 1, 0, 0, 0, 0, 0, 2, 100, 4, 0, 0, 0, 0] none
    (parse_status [0xAA, 0x55, 1, 0, 0, 0, 0, 0, 2, 100, 4, 0, 0, 0, 0]
      none).1
    (parse_status [0xAA, 0x55, 1, 0, 0, 0, 0, 0, 2, 100, 4, 0, 0, 0, 0]
      none).2
    (fun k hk => Option.noConfusion hk) rfl
  exact ⟨h.1, h.2.2.2 (by decide)⟩

/-- C3 counterexample: the claim that `_last_set_level` is mutated only by
a successful level-set fails — a plain status decode mutates it.  With
`_last_set_level = some 5`, decoding the mode-0 frame below (raw byte 10
is 2, so the clamped level is 3) overwrites the memory with 3. -/
theorem last_set_level_mutated_cex :
    ((get_status [0xAA, 0x55, 1, 0, 0, 0, 0, 0, 0, 0, 2, 0, 0, 0, 0]
        (some 5)).map fun p => p.2) = some (some 3) ∧
    (some 3 : Option Nat) ≠ some 5 := ⟨rfl, by decide⟩

/-- C3 amended: `_last_set_level` is left unchanged by a status decode
only when it is unset, or when the clamped decoded level is 1; whenever it
holds a value and the clamped decoded level differs from 1, the decode
overwrites it with that decoded level.  (It is also updated by a verified
successful `set_level`; see the client-command theorems.) -/
theorem last_set_level_lifecycle_amended (r : List Nat) (ls : Option Nat)
    (st : HeaterStatus) (ls' : Option Nat)
    (h : get_status r ls = some (st, ls')) :
    (ls = none → ls' = none) ∧
    (∀ k, ls = some k →
      ls' = if clamp_level (raw_target_level r) = 1 then some k
            else some (clamp_level (raw_target_level r))) := by
  have hx := get_status_eq h
  have hsnd : ls' = (parse_status r ls).2 := congrArg Prod.snd hx
  rw [hsnd, parse_status_last_set]
  constructor
  · intro hnone; rw [hnone]; rfl
  · intro k hk
    rw [hk]
    by_cases h1 : clamp_level (raw_target_level r) = 1
    · rw [if_pos h1]
      by_cases hk1 : k = 1
      · simp [level_pair, h1, hk1]
      · simp [level_pair, h1, hk1]
    · rw [if_neg h1]
      simp [level_pair, h1]

/-- Witness for C3 amended: with no remembered level, the decode of the
counterexample frame leaves the memory unset. -/
theorem last_set_level_lifecycle_amended_w :
    (parse_status [0xAA, 0x55, 1, 0, 0, 0, 0, 0, 0, 0, 2, 0, 0, 0, 0]
      none).2 = none := by
  have h := last_set_level_lifecycle_amended
    [0xAA, 0x55, 1, 0, 0, 0, 0, 0, 0, 0, 2, 0, 0, 0, 0] none
    (parse_status [0xAA, 0x55, 1, 0, 0, 0, 0, 0, 0, 0, 2, 0, 0, 0, 0]
      none).1
    (parse_status [0xAA, 0x55, 1, 0, 0, 0, 0, 0, 0, 0, 2, 0, 0, 0, 0]
      none).2 rfl
  exact h.1 rfl

/-- C6 counterexample: the claim that every mode-2 frame decodes its
target level to `clamp(raw[10] + 1)` fails when the correction heuristic
fires.  The mode-2 frame below has raw byte 10 equal to 0, so the clamped
wire level is 1; with `_last_set_level = some 7` the published level is 7,
not 1. -/
theorem mode2_level_heuristic_cex :
    ((get_status [0xAA, 0x55, 1, 0, 0, 0, 0, 0, 2, 25, 0, 0, 0, 0, 0]
        (some 7)).map fun p => p.1.target_level) = some 7 ∧
    clamp_level
      (([0xAA, 0x55, 1, 0, 0, 0, 0, 0, 2, 25, 0, 0, 0, 0, 0] :
        List Nat).getD 10 0 + 1) = 1 ∧
    (7 : Nat) ≠ 1 := ⟨rfl, by decide, by decide⟩

/-- C6 amended: for every successfully decoded frame with `runMode = 2`,
the decoded `target_temperature` equals raw byte 9 (always), and the
decoded `target_level` equals `clamp(raw[10] + 1)` in every case except
the correction-heuristic one — that clamped value being 1 while
`_last_set_level` holds a different value (settled by C7).  In
particular the level conclusion covers a clamped value of 1 with
`_last_set_level` unset or equal to 1. -/
theorem mode2_decode_amended (r : List Nat) (ls : Option Nat)
    (st : HeaterStatus) (ls' : Option Nat)
    (h : get_status r ls = some (st, ls')) (h8 : r.getD 8 0 = 2) :
    st.target_temperature = r.getD 9 0 ∧
    (¬ (clamp_level (r.getD 10 0 + 1) = 1 ∧ ∃ k, ls = some k ∧ k ≠ 1) →
      st.target_level = clamp_level (r.getD 10 0 + 1)) := by
  have hx := get_status_eq h
  have hst : st = (parse_status r ls).1 := congrArg Prod.fst hx
  have hraw : raw_target_level r = r.getD 10 0 + 1 := by
    unfold raw_target_level
    rw [h8]
    norm_num
  constructor
  · rw [hst, parse_status_target_temp, if_pos h8]
  · intro hne
    rw [hst, parse_status_target_level, hraw]
    rcases level_pair_spec (clamp_level (r.getD 10 0 + 1)) ls with
      ⟨hfst, -⟩ | ⟨k, hk, h1, hk1, -⟩
    · exact hfst
    · exact absurd ⟨h1, k, hk, hk1⟩ hne

/-- Witness for C6 amended, first at the concrete frame of the claim
(`runMode = 2`, raw byte 9 is 22, raw byte 10 is 4, nothing remembered —
decoding to `target_temperature = 22` and `target_level = 5`), and then
at the non-heuristic boundary case (raw byte 10 is 0, so the clamped
wire level is 1, with `_last_set_level = some 1` — decoding to
`target_level = 1`, the clamped wire value). -/
theorem mode2_decode_amended_w :
    (parse_status [0xAA, 0x55, 1, 0, 0, 0, 0, 0, 2, 22, 4, 0, 0, 0, 0]
      none).1.target_temperature = 22 ∧
    (parse_status [0xAA, 0x55, 1, 0, 0, 0, 0, 0, 2, 22, 4, 0, 0, 0, 0]
      none).1.target_level = 5 ∧
    (parse_status [0xAA, 0x55, 1, 0, 0, 0, 0, 0, 2, 22, 0, 0, 0, 0, 0]
      (some 1)).1.target_level = 1 := by
  have h := mode2_decode_amended
    [0xAA, 0x55, 1, 0, 0, 0, 0, 0, 2, 22, 4, 0, 0, 0, 0] none
    (parse_status [0xAA, 0x55, 1, 0, 0, 0, 0, 0, 2, 22, 4, 0, 0, 0, 0]
      none).1
    (parse_status [0xAA, 0x55, 1, 0, 0, 0, 0, 0, 2, 22, 4, 0, 0, 0, 0]
      none).2 rfl (by decide)
  have h' := mode2_decode_amended
    [0xAA, 0x55, 1, 0, 0, 0, 0, 0, 2, 22, 0, 0, 0, 0, 0] (some 1)
    (parse_status [0xAA, 0x55, 1, 0, 0, 0, 0, 0, 2, 22, 0, 0, 0, 0, 0]
      (some 1)).1
    (parse_status [0xAA, 0x55, 1, 0, 0, 0, 0, 0, 2, 22, 0, 0, 0, 0, 0]
      (some 1)).2 rfl (by decide)
  refine ⟨?_, ?_, ?_⟩
  · rw [h.1]; decide
  · rw [h.2 (fun hcon => by
      obtain ⟨-, k, hk, -⟩ := hcon
      exact Option.noConfusion hk)]
    decide
  · rw [h'.2 (fun hcon => by
      obtain ⟨-, k, hk, hk1⟩ := hcon
      exact hk1 (Option.some.inj hk).symm)]
    decide

/-- C7: the correction heuristic.  Whenever the clamped wire-decoded level
is 1 and `_last_set_level` holds a different value `k`, the published
snapshot reports `k` (and keeps `k` remembered). -/
theorem level_correction_heuristic (r : List Nat) (k : Nat)
    (st : HeaterStatus) (ls' : Option Nat)
    (h : get_status r (some k) = some (st, ls'))
    (h1 : clamp_level (raw_target_level r) = 1) (hk : k ≠ 1) :
    st.target_level = k ∧ ls' = some k := by
  have hx := get_status_eq h
  have hst : st = (parse_status r (some k)).1 := congrArg Prod.fst hx
  have hsnd : ls' = (parse_status r (some k)).2 := congrArg Prod.snd hx
  rw [hst, parse_status_target_level, hsnd, parse_status_last_set, h1]
  constructor
  · simp [level_pair, hk]
  · simp [level_pair, hk]

/-- Witness for C7 at the claim's concrete instance: reported level 1
(mode-2 frame with raw byte 10 equal to 0) and `_last_set_level = some 7`
yield a published `target_level` of 7. -/
theorem level_correction_heuristic_w :
    (parse_status [0xAA, 0x55, 1, 0, 0, 0, 0, 0, 2, 25, 0, 0, 0, 0, 0]
      (some 7)).1.target_level = 7 := by
  have h := level_correction_heuristic
    [0xAA, 0x55, 1, 0, 0, 0, 0, 0, 2, 25, 0, 0, 0, 0, 0] 7
    (parse_status [0xAA, 0x55, 1, 0, 0, 0, 0, 0, 2, 25, 0, 0, 0, 0, 0]
      (some 7)).1
    (parse_status [0xAA, 0x55, 1, 0, 0, 0, 0, 0, 2, 25, 0, 0, 0, 0, 0]
      (some 7)).2 rfl (by decide) (by decide)
  exact h.1

/-- C10: in every successfully decoded snapshot, `is_on` is true exactly
when the decoded run-state byte (raw byte 3) is one of 1, 2, 3, 4. -/
theorem is_on_iff_run_state (r : List Nat) (ls : Option Nat)
    (st : HeaterStatus) (ls' : Option Nat)
    (h : get_status r ls = some (st, ls')) :
    st.is_on = true ↔
      (r.getD 3 0 = 1 ∨ r.getD 3 0 = 2 ∨ r.getD 3 0 = 3 ∨
       r.getD 3 0 = 4) := by
  have hx := get_status_eq h
  have hst : st = (parse_status r ls).1 := congrArg Prod.fst hx
  rw [hst, parse_status_is_on]
  simp [Bool.or_eq_true, beq_iff_eq, or_assoc]

/-- Witness for C10: a frame with run-state byte 2 (igniting) decodes with
`is_on = true`. -/
theorem is_on_iff_run_state_w :
    (parse_status [0xAA, 0x55, 1, 2, 0, 0, 0, 0, 0, 0, 4, 0, 0, 0, 0]
      none).1.is_on = true := by
  have h := is_on_iff_run_state
    [0xAA, 0x55, 1, 2, 0, 0, 0, 0, 0, 0, 4, 0, 0, 0, 0] none
    (parse_status [0xAA, 0x55, 1, 2, 0, 0, 0, 0, 0, 0, 4, 0, 0, 0, 0]
      none).1
    (parse_status [0xAA, 0x55, 1, 2, 0, 0, 0, 0, 0, 0, 4, 0, 0, 0, 0]
      none).2 rfl
  exact h.mpr (by decide)

/-! ## Claim theorems for commands and the coordinator -/

/-- C2 counterexample: the claim that errors while executing a user
command are always surfaced (after a disconnect) fails.  A `set_level`
whose mode-set succeeded but whose three level-frame send attempts all
raised returns normally (`ok`), surfacing nothing (and the client never
disconnects inside `set_level`); likewise `set_power` returns `ok` even
when all three attempts and the final blind send raised.  (`set_level` is
moreover invoked by the number entity directly on the client, bypassing
the coordinator entirely — coordinator.py has no `async_set_level`.) -/
theorem user_command_error_swallowed_cex :
    (set_level 5 none (Except.ok ()) (Except.error "write failed")
        (Except.error "write failed") (Except.error "write failed")).result =
      Except.ok () ∧
    set_power true (Except.error "write failed") (Except.error "write failed")
        (Except.error "write failed") (Except.error "write failed") =
      Except.ok () := ⟨rfl, rfl⟩

/-- C2 amended: (1) every error that reaches a coordinator command method
(`async_set_power` / `async_set_temperature` / `async_set_fan_speed`) —
whether raised by the connect step or by the body — causes a best-effort
disconnect followed by re-raising that very error; but (2) `set_power`
never raises (transport failures are swallowed by its retry-then-blind
logic), and (3) `set_level` returns normally even when every level-frame
attempt fails, so those client-level failures never reach the
coordinator error path (and `set_level` is not routed through the
coordinator at all). -/
theorem coordinator_error_propagation_amended :
    (∀ (connected : Bool) (connectR bodyR : Except String Unit) (e : String),
      ((connected = true ∧ bodyR = Except.error e) ∨
       (connected = false ∧ connectR = Except.error e) ∨
       (connected = false ∧ connectR = Except.ok () ∧
        bodyR = Except.error e)) →
      async_command connected connectR bodyR =
        { disconnected := true, result := Except.error e }) ∧
    (∀ (p : Bool) (a1 a2 a3 b : Except String Unit),
      set_power p a1 a2 a3 b = Except.ok ()) ∧
    (∀ (lvl : Int) (ls : Option Nat) (e1 e2 e3 : String),
      1 ≤ lvl → lvl ≤ 10 →
      (set_level lvl ls (Except.ok ()) (Except.error e1) (Except.error e2)
          (Except.error e3)).result = Except.ok ()) := by
  refine ⟨?_, ?_, ?_⟩
  · rintro connected connectR bodyR e
      (⟨hc, hb⟩ | ⟨hc, hb⟩ | ⟨hc, hok, hb⟩) <;>
      subst hc <;> simp [async_command, hb]
    rw [hok]
  · intro p a1 a2 a3 b
    cases a1 <;> cases a2 <;> cases a3 <;> cases b <;> rfl
  · intro lvl ls e1 e2 e3 h1 h2
    have hv : ¬ ¬ ((1 : Int) ≤ lvl ∧ lvl ≤ 10) := fun hc => hc ⟨h1, h2⟩
    unfold set_level
    rw [if_neg hv]

/-- Witness for C2 amended: a failing body with the client already
connected is re-raised after a disconnect; a fully successful `set_power`
returns `ok`; a `set_level 5` whose three attempts all fail still
returns `ok`. -/
theorem coordinator_error_propagation_amended_w :
    async_command true (Except.ok ()) (Except.error "boom") =
      { disconnected := true, result := Except.error "boom" } ∧
    set_power true (Except.ok ()) (Except.ok ()) (Except.ok ())
      (Except.ok ()) = Except.ok () ∧
    (set_level 5 none (Except.ok ()) (Except.error "w1") (Except.error "w2")
        (Except.error "w3")).result = Except.ok () :=
  ⟨coordinator_error_propagation_amended.1 true (Except.ok ())
      (Except.error "boom") "boom" (Or.inl ⟨rfl, rfl⟩),
   coordinator_error_propagation_amended.2.1 true (Except.ok ())
      (Except.ok ()) (Except.ok ()) (Except.ok ()),
   coordinator_error_propagation_amended.2.2 5 none "w1" "w2" "w3"
      (by decide) (by decide)⟩

/-- C8: out-of-range inputs are rejected locally, before any transport
write: `set_temperature` outside `[8,36]` and `set_level` outside
`[1,10]` both raise `ValueError` with an empty write trace (and
`set_level` leaves `_last_set_level` untouched). -/
theorem range_validation_no_io :
    (∀ (t : Int) (modeR valR : Except String Unit),
      ¬ (MIN_TEMP ≤ t ∧ t ≤ MAX_TEMP) →
      set_temperature t modeR valR =
        { result := Except.error "ValueError", writes := [] }) ∧
    (∀ (lvl : Int) (ls : Option Nat) (modeR a1 a2 a3 : Except String Unit),
      ¬ (1 ≤ lvl ∧ lvl ≤ 10) →
      set_level lvl ls modeR a1 a2 a3 =
        { result := Except.error "ValueError", lastSet := ls,
          writes := [] }) := by
  constructor
  · intro t modeR valR ht
    unfold set_temperature
    rw [if_pos ht]
  · intro lvl ls modeR a1 a2 a3 hl
    unfold set_level
    rw [if_pos hl]

/-- Witness for C8 at the claim's concrete inputs: `set_temperature(40)`
and `set_temperature(5)` both fail with `ValueError` and an empty write
trace, as does `set_level(11)`. -/
theorem range_validation_no_io_w :
    set_temperature 40 (Except.ok ()) (Except.ok ()) =
      { result := Except.error "ValueError", writes := [] } ∧
    set_temperature 5 (Except.ok ()) (Except.ok ()) =
      { result := Except.error "ValueError", writes := [] } ∧
    set_level 11 none (Except.ok ()) (Except.ok ()) (Except.ok ())
        (Except.ok ()) =
      { result := Except.error "ValueError", lastSet := none,
        writes := [] } :=
  ⟨range_validation_no_io.1 40 (Except.ok ()) (Except.ok ()) (by decide),
   range_validation_no_io.1 5 (Except.ok ()) (Except.ok ()) (by decide),
   range_validation_no_io.2 11 none (Except.ok ()) (Except.ok ())
      (Except.ok ()) (Except.ok ()) (by decide)⟩

/-- The error branch of a polling tick, in closed form: with a previous
snapshot present and polling desired, any fetch failure yields a
disconnect attempt and a published snapshot equal to the (possibly
`Connecting...`-stamped) previous data — or the default when that data
still carried the `Initializing` seed — stamped with the truncated error
status. -/
theorem async_update_data_error_shape (prev : HeaterStatus)
    (connected : Bool) (e : String) :
    async_update_data (some prev) true connected (Except.error e) =
      { published :=
          { update_error_base
              (if connected = false then
                { prev with connection_status := "Connecting..." }
               else prev) with
            connection_status := "Error: " ++ e.take 20 ++ "..." },
        disconnected := true } := rfl

/-- C9: on every failure during a background polling tick (given a
previously published snapshot), the coordinator attempts a disconnect and
publishes — never raises; `async_update_data` is a total function — a
snapshot whose `connection_status` is the `Error:` string holding the
raised message truncated to 20 characters, and whose remaining fields are
those of the previous snapshot or of the default one. -/
theorem polling_failure_recovery (prev : HeaterStatus) (connected : Bool)
    (e : String) :
    (async_update_data (some prev) true connected
        (Except.error e)).disconnected = true ∧
    (async_update_data (some prev) true connected
        (Except.error e)).published.connection_status =
      "Error: " ++ e.take 20 ++ "..." ∧
    ((async_update_data (some prev) true connected
        (Except.error e)).published =
        { prev with connection_status := "Error: " ++ e.take 20 ++ "..." } ∨
      (async_update_data (some prev) true connected
        (Except.error e)).published =
        { get_default_status with
          connection_status := "Error: " ++ e.take 20 ++ "..." }) := by
  rw [async_update_data_error_shape]
  refine ⟨rfl, rfl, ?_⟩
  cases connected with
  | false =>
    left
    rw [if_pos rfl]
    have hne : ({ prev with connection_status := "Connecting..." } :
        HeaterStatus).connection_status ≠ "Initializing" := by
      show ("Connecting..." : String) ≠ "Initializing"
      decide
    unfold update_error_base
    rw [if_neg hne]
  | true =>
    rw [if_neg (by decide)]
    by_cases hcs : prev.connection_status = "Initializing"
    · right
      unfold update_error_base
      rw [if_pos hcs]
    · left
      unfold update_error_base
      rw [if_neg hcs]

end ParkingHeater
